import Mathlib

/-!
Shallow embedding of the oclutils compute-device broker (OclUtils.cpp):
platform/device discovery, vendor classification, device preference
ordering, the context-acquisition fallback loop, and the advisory
filesystem reservation protocol.  External effects (OpenCL calls,
the filesystem) are modelled as explicit environment parameters.
-/

/-! ### Filesystem lock model

`LockSys` is the state of one lock path: whether the file exists and
which file handle (if any) currently holds the advisory `flock`.
`FsEnv` supplies the outcomes of the fallible syscalls that do not
depend on the lock state: whether `open` succeeds and whether `flock`
fails with an error other than `EWOULDBLOCK`. -/

structure LockSys where
  fileExists : Bool
  holder : Option Nat
deriving DecidableEq, Repr

structure FsEnv where
  openOk : Bool
  flockOtherFail : Bool
deriving DecidableEq, Repr

/-- `LockFile` (OclUtils.cpp): open the path with `O_CREAT | O_TRUNC`
(which creates the file), then `flock(f, LOCK_EX | LOCK_NB)`.
Returns the file handle (modelled by the caller id `p`) on success and
`none` (the C code's `-1`) on open failure, on `EWOULDBLOCK` (lock
already held), or on any other flock error; in the two flock-failure
cases the opened handle is closed without holding the lock. -/
def LockFile (p : Nat) (env : FsEnv) (sys : LockSys) : Option Nat × LockSys :=
  if env.openOk = false then
    (none, sys)
  else
    let sys1 : LockSys := { sys with fileExists := true }
    match sys1.holder with
    | some _ => (none, sys1)
    | none =>
      if env.flockOtherFail then (none, sys1)
      else (some p, { sys1 with holder := some p })

/-- `UnlockFile` (OclUtils.cpp): closing the handle releases the flock
if that handle holds it. -/
def UnlockFile (f : Nat) (sys : LockSys) : LockSys :=
  if sys.holder = some f then { sys with holder := none } else sys

/-- `Verify_if_Device_is_Used` (OclUtils.cpp): probe the lock path with
`LockFile`; any failure (`-1`) is reported as "device is used", and on
success the probe lock is immediately released with `UnlockFile`. -/
def Verify_if_Device_is_Used (p : Nat) (env : FsEnv) (sys : LockSys) : Bool × LockSys :=
  match LockFile p env sys with
  | (none, sys2) => (true, sys2)
  | (some f, sys2) => (false, UnlockFile f sys2)

/-! ### Lock filename generation -/

/-- `isalpha` of the C locale: ASCII letters. -/
def isalphaC (c : Char) : Bool :=
  decide (('A' ≤ c ∧ c ≤ 'Z') ∨ ('a' ≤ c ∧ c ≤ 'z'))

/-- `isdigit` of the C locale: ASCII digits. -/
def isdigitC (c : Char) : Bool :=
  decide ('0' ≤ c ∧ c ≤ '9')

/-- Decimal rendering of a natural number (the `%d` of `sprintf`). -/
def natToStr (n : Nat) : List Char := Nat.toDigits 10 n

/-- Decimal rendering of a C `int` (the `%d` of `sprintf`). -/
def intToStr (i : Int) : List Char :=
  if i < 0 then '-' :: natToStr i.natAbs else natToStr i.toNat

/-- The buffer written by
`sprintf(t, "Platform: %d  Device: %d (%s, %s)", platform_id_offset, device_id,
platform_name, device_name)` in `get_lock_filename`. -/
def string_base_fill (platform_id_offset device_id : Int)
    (platform_name device_name : List Char) : List Char :=
  ("Platform: ").toList ++ intToStr platform_id_offset
    ++ ("  Device: ").toList ++ intToStr device_id
    ++ (" (").toList ++ platform_name
    ++ (", ").toList ++ device_name
    ++ (")").toList

/-- The character-replacing `for` loop of `get_lock_filename`: every
character that is neither `isalpha` nor `isdigit` becomes an underscore. -/
def sanitizeLoop : List Char → List Char
  | [] => []
  | c :: t => (if isalphaC c || isdigitC c then c else '_') :: sanitizeLoop t

/-- `get_lock_filename(device_id, platform_id_offset, platform_name, device_name)`
(OclUtils.cpp): `"/tmp/gpu"` + sanitized `sprintf` text + `".lck"`. -/
def get_lock_filename (device_id platform_id_offset : Int)
    (platform_name device_name : List Char) : List Char :=
  ("/tmp/gpu").toList
    ++ sanitizeLoop (string_base_fill platform_id_offset device_id platform_name device_name)
    ++ (".lck").toList

/-- The lock path as the spec describes it: fixed base, the literal text
`Platform: <discovery_offset>  Device: <device_id> (<platform_name>, <device_name>)`
with every character that is not an ASCII letter or digit replaced by `_`,
then the suffix `.lck`.  Stated with `List.map` over the formatted text. -/
def lock_filename_spec (device_id platform_id_offset : Int)
    (platform_name device_name : List Char) : List Char :=
  ("/tmp/gpu").toList
    ++ (string_base_fill platform_id_offset device_id platform_name device_name).map
        (fun c => if isalphaC c || isdigitC c then c else '_')
    ++ (".lck").toList

/-! ### Device model

`OpenCL_device` mirrors the fields of the C++ class that the claims
touch.  The OpenCL handles (`cl_device_id`, the context) are modelled
as a numeric handle and a boolean.  `DeviceInfo` is the per-device
environment: the device handle, the reported compute-unit count, and
the state/outcomes of the discovery-time lock probe on this device's
lock path. -/

structure DeviceInfo where
  handle : Nat
  max_compute_units : Nat
  probeEnv : FsEnv
  probeSys : LockSys
deriving DecidableEq, Repr

structure OpenCL_device where
  object_is_initialized : Bool
  parent_platform : Option Nat
  name : List Char
  id : Int
  device : Nat
  device_is_gpu : Bool
  max_compute_units : Nat
  context : Bool
  device_is_in_use : Bool
  is_lockable : Bool
  file_locked : Bool
  lock_file : Nat
deriving DecidableEq, Repr

/-- The `OpenCL_device` default constructor (OclUtils.cpp). -/
def OpenCL_device.default : OpenCL_device :=
  { object_is_initialized := false
    parent_platform := none
    name := []
    id := -1
    device := 0
    device_is_gpu := false
    max_compute_units := 0
    context := false
    device_is_in_use := false
    is_lockable := true
    file_locked := false
    lock_file := 0 }

/-- `OpenCL_device::Set_Information` (OclUtils.cpp): record the id,
handle and kind, snapshot the capability fields, and probe the in-use
status through `Verify_if_Device_is_Used`. -/
def Set_Information (d : OpenCL_device) (id : Int) (info : DeviceInfo)
    (device_is_gpu : Bool) : OpenCL_device :=
  { d with
    object_is_initialized := true
    id := id
    device := info.handle
    device_is_gpu := device_is_gpu
    max_compute_units := info.max_compute_units
    device_is_in_use := (Verify_if_Device_is_Used 0 info.probeEnv info.probeSys).1 }

/-- `OpenCL_device::operator<` (OclUtils.cpp): a not-in-use device wins
over an in-use one; on equal in-use status the device with strictly
more compute units wins. -/
def devLt (a b : OpenCL_device) : Bool :=
  if a.device_is_in_use = false ∧ b.device_is_in_use = true then
    true
  else if a.device_is_in_use = true ∧ b.device_is_in_use = false then
    false
  else
    decide (a.max_compute_units > b.max_compute_units)

/-- The non-strict ordering induced by `operator<`: `a` may come before
`b` in a list sorted by `operator<` exactly when `devLt b a` is false. -/
def devLe (a b : OpenCL_device) : Prop := devLt b a = false

instance : DecidableRel devLe := fun a b => instDecidableEqBool (devLt b a) false

/-- `device_list.sort()` (OclUtils.cpp), a comparison sort driven by
`OpenCL_device::operator<`, modelled as insertion sort. -/
def sortDevices (l : List OpenCL_device) : List OpenCL_device :=
  List.insertionSort devLe l

/-- The context-acquisition fallback loop at the end of
`OpenCL_devices_list::Initialize` (OclUtils.cpp): walk the sorted list,
calling `Set_Context` on each device; stop at the first success.
`ctxOk h` is the environment's answer to whether `clCreateContext`
succeeds on the device with handle `h`.  Returns the devices on which
context creation was attempted (in order) and the preferred device. -/
def contextLoop (ctxOk : Nat → Bool) : List OpenCL_device → List OpenCL_device × Option OpenCL_device
  | [] => ([], none)
  | d :: rest =>
    if ctxOk d.device then ([d], some d)
    else
      let r := contextLoop ctxOk rest
      (d :: r.1, r.2)

/-- One population loop of `OpenCL_devices_list::Initialize`: walk the
enumerated device infos, calling `Set_Information` on a
default-constructed device with consecutive ids starting at `startId`. -/
def mkDevices (startId : Nat) (device_is_gpu : Bool) : List DeviceInfo → List OpenCL_device
  | [] => []
  | info :: rest =>
      Set_Information OpenCL_device.default (Int.ofNat startId) info device_is_gpu
        :: mkDevices (startId + 1) device_is_gpu rest

/-- The CPU and GPU population loops of `OpenCL_devices_list::Initialize`:
the first `nb_cpu` entries are CPU devices with ids `0..nb_cpu-1`, the
next `nb_gpu` entries are GPU devices with ids `nb_cpu..nb_cpu+nb_gpu-1`. -/
def enumerateDevices (cpus gpus : List DeviceInfo) : List OpenCL_device :=
  mkDevices 0 false cpus ++ mkDevices cpus.length true gpus

inductive InitError where
  | noDevices
  | allInUse
  | noContext
deriving DecidableEq, Repr

/-- `OpenCL_devices_list::Initialize` (OclUtils.cpp): assert at least
one device, populate and probe the list, abort when every device is in
use, sort by `operator<`, then run the context fallback loop; abort
when no device accepts a context.  The first component is the list of
devices on which `Set_Context` was attempted; an `Except.error` models
the fatal `abort()`. -/
def OpenCL_devices_list.Initialize (cpus gpus : List DeviceInfo) (ctxOk : Nat → Bool) :
    List OpenCL_device × Except InitError (List OpenCL_device × OpenCL_device) :=
  if cpus.length + gpus.length < 1 then
    ([], Except.error InitError.noDevices)
  else
    let devs := enumerateDevices cpus gpus
    if devs.all (fun d => d.device_is_in_use) then
      ([], Except.error InitError.allInUse)
    else
      let sorted := sortDevices devs
      let r := contextLoop ctxOk sorted
      match r.2 with
      | some pref => (r.1, Except.ok (sorted, pref))
      | none => (r.1, Except.error InitError.noContext)

/-- `OpenCL_device::Lock` (OclUtils.cpp): attempt `LockFile` on the
device's lock path; any failure is a fatal `abort()` (`Except.error`),
success retains the handle and sets `file_locked`. -/
def OpenCL_device.Lock (p : Nat) (env : FsEnv) (d : OpenCL_device) (sys : LockSys) :
    Except Unit (OpenCL_device × LockSys) :=
  match LockFile p env sys with
  | (none, _) => Except.error ()
  | (some f, sys2) => Except.ok ({ d with lock_file := f, file_locked := true }, sys2)

/-- `OpenCL_device::Unlock` (OclUtils.cpp): release via `UnlockFile`
only when `file_locked` is set; otherwise do nothing. -/
def OpenCL_device.Unlock (d : OpenCL_device) (sys : LockSys) : OpenCL_device × LockSys :=
  if d.file_locked then
    ({ d with file_locked := false }, UnlockFile d.lock_file sys)
  else
    (d, sys)

/-- `OpenCL_platform::Lock_Best_Device` (OclUtils.cpp): lock the
preferred device when it is lockable, otherwise do nothing. -/
def Lock_Best_Device (p : Nat) (env : FsEnv) (pref : OpenCL_device) (sys : LockSys) :
    Except Unit (OpenCL_device × LockSys) :=
  if pref.is_lockable then OpenCL_device.Lock p env pref sys
  else Except.ok (pref, sys)

/-- The operations of OclUtils.cpp that act on an `OpenCL_device` after
construction. -/
inductive DevOp where
  | setInfo (id : Int) (info : DeviceInfo) (device_is_gpu : Bool)
  | setContextOp (ok : Bool)
  | lockOp (p : Nat) (env : FsEnv) (sys : LockSys)
  | unlockOp (sys : LockSys)
  | setParent (pl : Nat)
deriving Repr

/-- Apply one device operation (a fatal abort inside `Lock` leaves the
device record unchanged, since the process is gone). -/
def applyOp (d : OpenCL_device) : DevOp → OpenCL_device
  | DevOp.setInfo id info g => Set_Information d id info g
  | DevOp.setContextOp ok => { d with context := ok }
  | DevOp.lockOp p env sys =>
      match OpenCL_device.Lock p env d sys with
      | Except.ok (d2, _) => d2
      | Except.error _ => d
  | DevOp.unlockOp sys => (OpenCL_device.Unlock d sys).1
  | DevOp.setParent pl => { d with parent_platform := some pl }

/-! ### Platform model: vendor classification and platform list -/

/-- The vendor classification keys of OclUtils.hpp
(`OPENCL_PLATFORMS_NVIDIA` etc.). -/
inductive PlatformKey where
  | NVIDIA
  | AMD
  | INTEL
  | APPLE
deriving DecidableEq, Repr

/-- `tolower` of the C locale on ASCII. -/
def tolowerChar (c : Char) : Char :=
  if 'A' ≤ c ∧ c ≤ 'Z' then Char.ofNat (c.toNat + 32) else c

/-- Does `hay` start with `needle`? -/
def startsWithL : List Char → List Char → Bool
  | _, [] => true
  | [], _ :: _ => false
  | c :: cs, n :: ns => c == n && startsWithL cs ns

/-- `std::string::find(needle) != npos`: does `needle` occur as a
contiguous substring of `hay`? -/
def containsSub (needle : List Char) : List Char → Bool
  | [] => needle.isEmpty
  | c :: t => startsWithL (c :: t) needle || containsSub needle t

/-- `needle` occurs contiguously inside `hay`. -/
def OccursIn (needle hay : List Char) : Prop :=
  ∃ s t, hay = s ++ needle ++ t

/-- The vendor-classification chain of `OpenCL_platforms_list::Initialize`
(OclUtils.cpp): lower-case the vendor string, then test the fixed
substrings in order; `none` models the fatal `abort()` on an unknown
vendor. -/
def classify (vendor : List Char) : Option PlatformKey :=
  let v := vendor.map tolowerChar
  if containsSub ("nvidia").toList v then some PlatformKey.NVIDIA
  else if containsSub ("advanced micro devices").toList v || containsSub ("amd").toList v then
    some PlatformKey.AMD
  else if containsSub ("intel").toList v then some PlatformKey.INTEL
  else if containsSub ("apple").toList v then some PlatformKey.APPLE
  else none

/-- `platforms[key]` followed by `platform.Initialize(key, offset, ...)`:
insert-or-overwrite the offset stored under `key` in the vendor-keyed
map (modelled as an insertion-ordered association list). -/
def mapInsert (m : List (PlatformKey × Nat)) (k : PlatformKey) (off : Nat) :
    List (PlatformKey × Nat) :=
  match m with
  | [] => [(k, off)]
  | (k2, v2) :: t => if k2 = k then (k, off) :: t else (k2, v2) :: mapInsert t k off

/-- Lookup in the vendor-keyed map. -/
def mapLookup (m : List (PlatformKey × Nat)) (k : PlatformKey) : Option Nat :=
  match m with
  | [] => none
  | (k2, v2) :: t => if k2 = k then some v2 else mapLookup t k

/-- The discovery loop of `OpenCL_platforms_list::Initialize`: classify
each discovered vendor string (fatal `abort()`, i.e. `none`, on an
unknown vendor), store the platform under its key with the current
`platform_id_offset`, and increment the offset.  Returns the final map
and the list of `(key, offset)` assignments in discovery order. -/
def platformsRun (off : Nat) (m : List (PlatformKey × Nat)) :
    List (List Char) → Option (List (PlatformKey × Nat) × List (PlatformKey × Nat))
  | [] => some (m, [])
  | v :: vs =>
    match classify v with
    | none => none
    | some k =>
      match platformsRun (off + 1) (mapInsert m k off) vs with
      | none => none
      | some (mf, asg) => some (mf, (k, off) :: asg)

/-- `OpenCL_platforms_list::Initialize` (OclUtils.cpp): fatal when zero
platforms are discovered, otherwise run the discovery loop starting
from offset 0 and an empty map. -/
def OpenCL_platforms_list.Initialize (vendors : List (List Char)) :
    Option (List (PlatformKey × Nat) × List (PlatformKey × Nat)) :=
  if vendors.length = 0 then none
  else platformsRun 0 [] vendors

/-- The index of the last occurrence of `k` among the keys of the
assignment log. -/
def lastVal (k : PlatformKey) : List (PlatformKey × Nat) → Option Nat
  | [] => none
  | (k2, v) :: t =>
    match lastVal k t with
    | some r => some r
    | none => if k2 = k then some v else none

/-! ### Helper lemmas -/

theorem sanitizeLoop_eq_map (l : List Char) :
    sanitizeLoop l = l.map (fun c => if isalphaC c || isdigitC c then c else '_') := by
  induction l with
  | nil => rfl
  | cons c t ih => simp [sanitizeLoop, ih]

/-! ### Claim C9 -/

/-- Claim C9: lock-file path generation is a pure function of the tuple
(platform discovery offset, device id, platform name, device name); the
path equals the fixed base `"/tmp/gpu"` plus the text
`Platform: <offset>  Device: <device_id> (<platform_name>, <device_name>)`
with every character that is not an ASCII letter or digit replaced by
an underscore, followed by the suffix `".lck"`. -/
theorem claim_C9 (device_id platform_id_offset : Int)
    (platform_name device_name : List Char) :
    get_lock_filename device_id platform_id_offset platform_name device_name
      = lock_filename_spec device_id platform_id_offset platform_name device_name ∧
    (∀ d2 o2 pn2 dn2, device_id = d2 → platform_id_offset = o2 →
      platform_name = pn2 → device_name = dn2 →
      get_lock_filename device_id platform_id_offset platform_name device_name
        = get_lock_filename d2 o2 pn2 dn2) := by
  constructor
  · unfold get_lock_filename lock_filename_spec
    rw [sanitizeLoop_eq_map]
  · intro d2 o2 pn2 dn2 h1 h2 h3 h4
    subst h1; subst h2; subst h3; subst h4
    rfl

/-- Witness for C9 at a concrete device identity. -/
theorem claim_C9_witness :
    get_lock_filename 1 0 ("NVIDIA CUDA").toList ("GeForce GTX 580").toList
      = lock_filename_spec 1 0 ("NVIDIA CUDA").toList ("GeForce GTX 580").toList ∧
    get_lock_filename 1 0 ("NVIDIA CUDA").toList ("GeForce GTX 580").toList
      = get_lock_filename 1 0 ("NVIDIA CUDA").toList ("GeForce GTX 580").toList :=
  ⟨(claim_C9 1 0 ("NVIDIA CUDA").toList ("GeForce GTX 580").toList).1,
   (claim_C9 1 0 ("NVIDIA CUDA").toList ("GeForce GTX 580").toList).2
      1 0 ("NVIDIA CUDA").toList ("GeForce GTX 580").toList rfl rfl rfl rfl⟩

/-! ### Claim C3 (corrected) -/

/-- Counterexample to claim C3 as stated: with the lock not held at all
(`holder = none`) but the `open` syscall failing, `LockFile` fails, and
the discovery probe still marks the device in-use — so in-use is not
set "exactly when the lock is already held". -/
theorem claim_C3_counterexample :
    (LockFile 0 { openOk := false, flockOtherFail := false }
        { fileExists := false, holder := none }).1 = none ∧
    ({ fileExists := false, holder := none } : LockSys).holder = none ∧
    (Verify_if_Device_is_Used 0 { openOk := false, flockOtherFail := false }
        { fileExists := false, holder := none }).1 = true :=
  ⟨rfl, rfl, rfl⟩

/-- Claim C3 (amended): the discovery probe marks a device in-use
exactly when the lock attempt fails for any reason (open failure, lock
already held, or any other lock error); the probe never retains the
lock (the flock holder is unchanged by the probe); and during an
explicit `Lock()` request any lock-attempt failure — in particular the
lock being already held — is fatal. -/
theorem claim_C3 (p : Nat) (env : FsEnv) (sys : LockSys) (d : OpenCL_device) :
    ((Verify_if_Device_is_Used p env sys).1 = true ↔ (LockFile p env sys).1 = none) ∧
    (Verify_if_Device_is_Used p env sys).2.holder = sys.holder ∧
    ((LockFile p env sys).1 = none →
      OpenCL_device.Lock p env d sys = Except.error ()) ∧
    (sys.holder ≠ none → OpenCL_device.Lock p env d sys = Except.error ()) := by
  rcases env with ⟨oOk, oFail⟩
  rcases sys with ⟨fe, hold⟩
  cases oOk <;> cases oFail <;> cases hold <;>
    simp [Verify_if_Device_is_Used, OpenCL_device.Lock, LockFile, UnlockFile]

/-- Witness for C3 at a concrete probe where the lock is already held. -/
theorem claim_C3_witness :
    ((Verify_if_Device_is_Used 0 { openOk := true, flockOtherFail := false }
        { fileExists := true, holder := some 7 }).1 = true ↔
      (LockFile 0 { openOk := true, flockOtherFail := false }
        { fileExists := true, holder := some 7 }).1 = none) ∧
    (Verify_if_Device_is_Used 0 { openOk := true, flockOtherFail := false }
        { fileExists := true, holder := some 7 }).2.holder = some 7 ∧
    OpenCL_device.Lock 0 { openOk := true, flockOtherFail := false }
        OpenCL_device.default { fileExists := true, holder := some 7 }
      = Except.error () := by
  have h := claim_C3 0 { openOk := true, flockOtherFail := false }
    { fileExists := true, holder := some 7 } OpenCL_device.default
  exact ⟨h.1, h.2.1, h.2.2.2 (by simp)⟩

/-! ### Claim C8 -/

/-- Claim C8: `Unlock()` releases the lock iff it is currently held by
this device instance (`file_locked`), is a no-op otherwise, and is
idempotent; and after a successful `Lock()` followed by `Unlock()` the
flock is released and the file still exists, so a subsequent `Lock()`
(by any caller) succeeds. -/
theorem claim_C8 :
    (∀ (d : OpenCL_device) (sys : LockSys), d.file_locked = false →
      OpenCL_device.Unlock d sys = (d, sys)) ∧
    (∀ (d : OpenCL_device) (sys : LockSys), d.file_locked = true →
      (OpenCL_device.Unlock d sys).1.file_locked = false ∧
      (sys.holder = some d.lock_file → (OpenCL_device.Unlock d sys).2.holder = none) ∧
      (sys.holder ≠ some d.lock_file → (OpenCL_device.Unlock d sys).2 = sys)) ∧
    (∀ (d : OpenCL_device) (sys : LockSys),
      OpenCL_device.Unlock (OpenCL_device.Unlock d sys).1 (OpenCL_device.Unlock d sys).2
        = OpenCL_device.Unlock d sys) ∧
    (∀ (p q : Nat) (env : FsEnv) (d : OpenCL_device) (sys : LockSys),
      env.openOk = true → env.flockOtherFail = false → sys.holder = none →
      ∃ d1 sys1, OpenCL_device.Lock p env d sys = Except.ok (d1, sys1) ∧
        (OpenCL_device.Unlock d1 sys1).2.holder = none ∧
        (OpenCL_device.Unlock d1 sys1).2.fileExists = true ∧
        ∃ d2 sys2,
          OpenCL_device.Lock q env (OpenCL_device.Unlock d1 sys1).1
              (OpenCL_device.Unlock d1 sys1).2
            = Except.ok (d2, sys2)) := by
  refine ⟨?_, ?_, ?_, ?_⟩
  · intro d sys h
    simp [OpenCL_device.Unlock, h]
  · intro d sys h
    refine ⟨by simp [OpenCL_device.Unlock, h], ?_, ?_⟩
    · intro hh
      simp [OpenCL_device.Unlock, h, UnlockFile, hh]
    · intro hh
      simp [OpenCL_device.Unlock, h, UnlockFile, hh]
  · intro d sys
    cases h : d.file_locked
    · simp [OpenCL_device.Unlock, h]
    · simp [OpenCL_device.Unlock, h]
  · intro p q env d sys h1 h2 h3
    rcases env with ⟨oOk, oFail⟩
    rcases sys with ⟨fe, hold⟩
    simp only at h1 h2 h3
    subst h1; subst h2; subst h3
    refine ⟨{ d with lock_file := p, file_locked := true },
      { fileExists := true, holder := some p }, ?_, ?_, ?_, ?_⟩
    · simp [OpenCL_device.Lock, LockFile]
    · simp [OpenCL_device.Unlock, UnlockFile]
    · simp [OpenCL_device.Unlock, UnlockFile]
    · refine ⟨{ d with lock_file := q, file_locked := true },
        { fileExists := true, holder := some q }, ?_⟩
      simp [OpenCL_device.Unlock, UnlockFile, OpenCL_device.Lock, LockFile]

/-- Witness for C8 at a concrete device and lock state. -/
theorem claim_C8_witness :
    OpenCL_device.Unlock OpenCL_device.default { fileExists := true, holder := none }
      = (OpenCL_device.default, { fileExists := true, holder := none }) ∧
    (∃ d1 sys1,
      OpenCL_device.Lock 3 { openOk := true, flockOtherFail := false }
        OpenCL_device.default { fileExists := false, holder := none }
        = Except.ok (d1, sys1) ∧
      (OpenCL_device.Unlock d1 sys1).2.holder = none ∧
      (OpenCL_device.Unlock d1 sys1).2.fileExists = true ∧
      ∃ d2 sys2,
        OpenCL_device.Lock 4 { openOk := true, flockOtherFail := false }
            (OpenCL_device.Unlock d1 sys1).1 (OpenCL_device.Unlock d1 sys1).2
          = Except.ok (d2, sys2)) :=
  ⟨claim_C8.1 OpenCL_device.default { fileExists := true, holder := none } rfl,
   claim_C8.2.2.2 3 4 { openOk := true, flockOtherFail := false }
     OpenCL_device.default { fileExists := false, holder := none } rfl rfl rfl⟩

/-! ### Claim C10 -/

theorem applyOp_is_lockable (d : OpenCL_device) (op : DevOp) :
    (applyOp d op).is_lockable = d.is_lockable := by
  cases op with
  | setInfo i info g => rfl
  | setContextOp ok => rfl
  | lockOp p env sys =>
    simp only [applyOp, OpenCL_device.Lock]
    rcases LockFile p env sys with ⟨r, sys2⟩
    cases r <;> rfl
  | unlockOp sys =>
    simp only [applyOp, OpenCL_device.Unlock]
    cases h : d.file_locked <;> simp [h]
  | setParent pl => rfl

theorem foldl_applyOp_is_lockable (ops : List DevOp) (d : OpenCL_device) :
    (ops.foldl applyOp d).is_lockable = d.is_lockable := by
  induction ops generalizing d with
  | nil => rfl
  | cons op t ih => rw [List.foldl_cons, ih, applyOp_is_lockable]

/-- Claim C10: `is_lockable` is `true` at construction and no device
operation ever modifies it, so every device reachable from the
constructor by any sequence of operations is lockable, and
`Lock_Best_Device` on such a device always takes the `Lock()` branch
(its "not lockable" no-op branch is unreachable). -/
theorem claim_C10 :
    (∀ (d : OpenCL_device) (op : DevOp), (applyOp d op).is_lockable = d.is_lockable) ∧
    OpenCL_device.default.is_lockable = true ∧
    (∀ ops : List DevOp, (ops.foldl applyOp OpenCL_device.default).is_lockable = true) ∧
    (∀ (ops : List DevOp) (p : Nat) (env : FsEnv) (sys : LockSys),
      Lock_Best_Device p env (ops.foldl applyOp OpenCL_device.default) sys
        = OpenCL_device.Lock p env (ops.foldl applyOp OpenCL_device.default) sys) := by
  refine ⟨applyOp_is_lockable, rfl, ?_, ?_⟩
  · intro ops
    rw [foldl_applyOp_is_lockable]
    rfl
  · intro ops p env sys
    unfold Lock_Best_Device
    rw [if_pos]
    rw [foldl_applyOp_is_lockable]
    rfl

/-! ### Claim C5 -/

theorem mkDevices_map_id (s : Nat) (g : Bool) (l : List DeviceInfo) :
    (mkDevices s g l).map (fun d => d.id) = (List.range' s l.length).map Int.ofNat := by
  induction l generalizing s with
  | nil => rfl
  | cons info t ih =>
    rw [List.length_cons, List.range'_succ]
    simp [mkDevices, Set_Information, ih]

theorem mkDevices_map_kind (s : Nat) (g : Bool) (l : List DeviceInfo) :
    (mkDevices s g l).map (fun d => (d.device_is_gpu, d.device))
      = l.map (fun i => (g, i.handle)) := by
  induction l generalizing s with
  | nil => rfl
  | cons info t ih => simp [mkDevices, Set_Information, ih]

theorem mkDevices_length (s : Nat) (g : Bool) (l : List DeviceInfo) :
    (mkDevices s g l).length = l.length := by
  induction l generalizing s with
  | nil => rfl
  | cons info t ih => simp [mkDevices, ih]

/-- Claim C5: after enumeration the device ids are exactly the
contiguous range `0..nb_cpu+nb_gpu-1` in list order; the first
`nb_cpu` entries are the CPU devices in enumeration order and the
remaining `nb_gpu` entries are the accelerator devices in enumeration
order. -/
theorem claim_C5 (cpus gpus : List DeviceInfo) :
    (enumerateDevices cpus gpus).map (fun d => d.id)
      = (List.range (cpus.length + gpus.length)).map Int.ofNat ∧
    ((enumerateDevices cpus gpus).take cpus.length).map
        (fun d => (d.device_is_gpu, d.device))
      = cpus.map (fun i => ((false : Bool), i.handle)) ∧
    ((enumerateDevices cpus gpus).drop cpus.length).map
        (fun d => (d.device_is_gpu, d.device))
      = gpus.map (fun i => ((true : Bool), i.handle)) := by
  refine ⟨?_, ?_, ?_⟩
  · unfold enumerateDevices
    rw [List.map_append, mkDevices_map_id, mkDevices_map_id, List.range_eq_range',
      ← List.map_append,
      show List.range' cpus.length gpus.length
          = List.range' (0 + cpus.length) gpus.length by rw [Nat.zero_add],
      List.range'_append_1, Nat.add_comm gpus.length cpus.length]
  · unfold enumerateDevices
    rw [List.take_left' (mkDevices_length 0 false cpus), mkDevices_map_kind]
  · unfold enumerateDevices
    rw [List.drop_left' (mkDevices_length 0 false cpus), mkDevices_map_kind]

/-! ### Claim C4 -/

/-- Claim C4: when every enumerated device is marked in-use by the
discovery probe, `OpenCL_devices_list::Initialize` aborts fatally
before returning — with the "all devices in use" abort whenever there
is at least one device — and no context creation is attempted on any
device. -/
theorem claim_C4 (cpus gpus : List DeviceInfo) (ctxOk : Nat → Bool)
    (h : ∀ a ∈ enumerateDevices cpus gpus, a.device_is_in_use = true) :
    (OpenCL_devices_list.Initialize cpus gpus ctxOk).1 = [] ∧
    (∃ e, (OpenCL_devices_list.Initialize cpus gpus ctxOk).2 = Except.error e) ∧
    (1 ≤ cpus.length + gpus.length →
      (OpenCL_devices_list.Initialize cpus gpus ctxOk).2
        = Except.error InitError.allInUse) := by
  by_cases hlen : cpus.length + gpus.length < 1
  · have hval : OpenCL_devices_list.Initialize cpus gpus ctxOk
        = ([], Except.error InitError.noDevices) := by
      unfold OpenCL_devices_list.Initialize
      rw [if_pos hlen]
    rw [hval]
    exact ⟨rfl, ⟨InitError.noDevices, rfl⟩, fun hc => absurd hc (by omega)⟩
  · have hall : (enumerateDevices cpus gpus).all (fun d => d.device_is_in_use) = true :=
      List.all_eq_true.mpr h
    have hval : OpenCL_devices_list.Initialize cpus gpus ctxOk
        = ([], Except.error InitError.allInUse) := by
      unfold OpenCL_devices_list.Initialize
      simp only [if_neg hlen]
      rw [if_pos hall]
    rw [hval]
    exact ⟨rfl, ⟨InitError.allInUse, rfl⟩, fun _ => rfl⟩

/-- Witness for C4: one CPU device whose probe finds the lock held. -/
theorem claim_C4_witness :
    (OpenCL_devices_list.Initialize
        [{ handle := 5, max_compute_units := 4,
           probeEnv := { openOk := true, flockOtherFail := false },
           probeSys := { fileExists := true, holder := some 7 } }] []
        (fun _ => true)).1 = [] ∧
    (OpenCL_devices_list.Initialize
        [{ handle := 5, max_compute_units := 4,
           probeEnv := { openOk := true, flockOtherFail := false },
           probeSys := { fileExists := true, holder := some 7 } }] []
        (fun _ => true)).2 = Except.error InitError.allInUse := by
  have h := claim_C4
    [{ handle := 5, max_compute_units := 4,
       probeEnv := { openOk := true, flockOtherFail := false },
       probeSys := { fileExists := true, holder := some 7 } }] []
    (fun _ => true) (by decide)
  exact ⟨h.1, h.2.2 (by decide)⟩

/-! ### Claim C1 -/

theorem contextLoop_first_success (ctxOk : Nat → Bool) (l1 l2 : List OpenCL_device)
    (d : OpenCL_device) (h1 : ∀ a ∈ l1, ctxOk a.device = false)
    (h2 : ctxOk d.device = true) :
    contextLoop ctxOk (l1 ++ d :: l2) = (l1 ++ [d], some d) := by
  induction l1 with
  | nil => simp [contextLoop, h2]
  | cons a t ih =>
    have ha : ctxOk a.device = false := h1 a (by simp)
    have ih2 := ih (fun x hx => h1 x (by simp [hx]))
    simp [contextLoop, ha, ih2]

theorem contextLoop_snd_eq_find (ctxOk : Nat → Bool) (l : List OpenCL_device) :
    (contextLoop ctxOk l).2 = l.find? (fun a => ctxOk a.device) := by
  induction l with
  | nil => rfl
  | cons d t ih =>
    cases h : ctxOk d.device
    · rw [List.find?_cons_of_neg _ (by simp [h])]
      simp [contextLoop, h, ih]
    · rw [List.find?_cons_of_pos _ (by simp [h])]
      simp [contextLoop, h]

theorem contextLoop_all_fail (ctxOk : Nat → Bool) (l : List OpenCL_device)
    (h : ∀ a ∈ l, ctxOk a.device = false) :
    contextLoop ctxOk l = (l, none) := by
  induction l with
  | nil => rfl
  | cons d t ih =>
    have hd : ctxOk d.device = false := h d (by simp)
    have ih2 := ih (fun x hx => h x (by simp [hx]))
    simp [contextLoop, hd, ih2]

/-- Claim C1: the context loop walks the sorted list in order; the
preferred device is the earliest device for which context creation
succeeds, iteration stops there (exactly the failing elders and the
winner are attempted, never the devices after it), and when context
creation fails on every device `OpenCL_devices_list::Initialize` aborts
fatally, having attempted every device of the sorted list. -/
theorem claim_C1 (ctxOk : Nat → Bool) (l1 l2 : List OpenCL_device) (d : OpenCL_device)
    (cpus gpus : List DeviceInfo)
    (h1 : ∀ a ∈ l1, ctxOk a.device = false) (h2 : ctxOk d.device = true)
    (h3 : ∀ a ∈ enumerateDevices cpus gpus, ctxOk a.device = false)
    (h4 : 1 ≤ cpus.length + gpus.length)
    (h5 : ¬ ∀ a ∈ enumerateDevices cpus gpus, a.device_is_in_use = true) :
    contextLoop ctxOk (l1 ++ d :: l2) = (l1 ++ [d], some d) ∧
    (∀ l : List OpenCL_device,
      (contextLoop ctxOk l).2 = l.find? (fun a => ctxOk a.device)) ∧
    (OpenCL_devices_list.Initialize cpus gpus ctxOk).2
      = Except.error InitError.noContext ∧
    (OpenCL_devices_list.Initialize cpus gpus ctxOk).1
      = sortDevices (enumerateDevices cpus gpus) := by
  have hlen : ¬ cpus.length + gpus.length < 1 := by omega
  have hall : ¬ ((enumerateDevices cpus gpus).all (fun d => d.device_is_in_use) = true) :=
    fun hc => h5 (List.all_eq_true.mp hc)
  have hall2 : (enumerateDevices cpus gpus).all (fun d => d.device_is_in_use) = false :=
    Bool.not_eq_true _ ▸ (Bool.eq_false_iff.mpr (fun hc => hall hc))
  have hsortfail : ∀ a ∈ sortDevices (enumerateDevices cpus gpus), ctxOk a.device = false := by
    intro a ha
    exact h3 a ((List.perm_insertionSort devLe (enumerateDevices cpus gpus)).subset ha)
  have hloop := contextLoop_all_fail ctxOk _ hsortfail
  have hval : OpenCL_devices_list.Initialize cpus gpus ctxOk
      = (sortDevices (enumerateDevices cpus gpus), Except.error InitError.noContext) := by
    unfold OpenCL_devices_list.Initialize
    simp only [if_neg hlen]
    rw [if_neg hall]
    simp only [sortDevices] at hloop ⊢
    rw [hloop]
  exact ⟨contextLoop_first_success ctxOk l1 l2 d h1 h2,
    contextLoop_snd_eq_find ctxOk,
    by rw [hval],
    by rw [hval]⟩

/-- Witness for C1: the sorted order `[D0 (fails), D1 (succeeds), D2]`
yields preferred device D1 with D2 never attempted; a separate
platform whose only device rejects contexts aborts with the
"cannot set a context on any device" fatal error. -/
theorem claim_C1_witness :
    contextLoop (fun h => h == 1)
        ([{ OpenCL_device.default with device := 0 }]
          ++ { OpenCL_device.default with device := 1 }
          :: [{ OpenCL_device.default with device := 2 }])
      = ([{ OpenCL_device.default with device := 0 },
          { OpenCL_device.default with device := 1 }],
         some { OpenCL_device.default with device := 1 }) ∧
    (OpenCL_devices_list.Initialize
        [{ handle := 5, max_compute_units := 4,
           probeEnv := { openOk := true, flockOtherFail := false },
           probeSys := { fileExists := false, holder := none } }] []
        (fun h => h == 1)).2 = Except.error InitError.noContext := by
  have h := claim_C1 (fun h => h == 1)
    [{ OpenCL_device.default with device := 0 }]
    [{ OpenCL_device.default with device := 2 }]
    { OpenCL_device.default with device := 1 }
    [{ handle := 5, max_compute_units := 4,
       probeEnv := { openOk := true, flockOtherFail := false },
       probeSys := { fileExists := false, holder := none } }] []
    (by decide) (by decide) (by decide) (by decide) (by decide)
  exact ⟨h.1, h.2.2.1⟩

/-! ### Claim C2 -/

theorem devLt_asymm (a b : OpenCL_device) (h : devLt a b = true) : devLt b a = false := by
  unfold devLt at h ⊢
  rcases ha : a.device_is_in_use <;> rcases hb : b.device_is_in_use <;>
    simp [ha, hb] at h ⊢ <;> omega

theorem devLe_trans_aux (a b c : OpenCL_device)
    (hab : devLt b a = false) (hbc : devLt c b = false) : devLt c a = false := by
  unfold devLt at hab hbc ⊢
  rcases ha : a.device_is_in_use <;> rcases hb : b.device_is_in_use <;>
    rcases hc : c.device_is_in_use <;> simp [ha, hb, hc] at hab hbc ⊢ <;> omega

instance : IsTotal OpenCL_device devLe :=
  ⟨fun a b => by
    cases h : devLt b a
    · exact Or.inl h
    · exact Or.inr (devLt_asymm b a h)⟩

instance : IsTrans OpenCL_device devLe :=
  ⟨fun a b c hab hbc => devLe_trans_aux a b c hab hbc⟩

theorem sortDevices_pairwise (l : List OpenCL_device) :
    (sortDevices l).Pairwise (fun x y =>
      (x.device_is_in_use = true → y.device_is_in_use = true) ∧
      (x.device_is_in_use = y.device_is_in_use →
        y.max_compute_units ≤ x.max_compute_units)) := by
  have hs : (sortDevices l).Pairwise devLe := List.sorted_insertionSort devLe l
  refine hs.imp ?_
  intro x y hxy
  unfold devLe devLt at hxy
  rcases hx : x.device_is_in_use <;> rcases hy : y.device_is_in_use <;>
    simp [hx, hy] at hxy ⊢ <;> omega

/-- Claim C2: the comparator prefers a free device over a busy one
regardless of capability, and on equal in-use status prefers the
strictly higher compute-unit count; consequently in the sorted list
every free device precedes every busy device, and within equal in-use
status compute-unit counts are non-increasing. -/
theorem claim_C2 :
    (∀ a b : OpenCL_device, a.device_is_in_use ≠ b.device_is_in_use →
      (devLt a b = true ↔ a.device_is_in_use = false)) ∧
    (∀ a b : OpenCL_device, a.device_is_in_use = b.device_is_in_use →
      (devLt a b = true ↔ a.max_compute_units > b.max_compute_units)) ∧
    (∀ l : List OpenCL_device, (sortDevices l).Pairwise (fun x y =>
      (x.device_is_in_use = true → y.device_is_in_use = true) ∧
      (x.device_is_in_use = y.device_is_in_use →
        y.max_compute_units ≤ x.max_compute_units))) := by
  refine ⟨?_, ?_, sortDevices_pairwise⟩
  · intro a b hne
    unfold devLt
    rcases ha : a.device_is_in_use <;> rcases hb : b.device_is_in_use <;>
      simp [ha, hb] at hne ⊢
  · intro a b heq
    unfold devLt
    rcases ha : a.device_is_in_use <;> rcases hb : b.device_is_in_use <;>
      simp [ha, hb] at heq ⊢

/-- Devices used by concrete witnesses: the spec scenario of a free
4-unit CPU, a free 16-unit GPU and a busy 32-unit GPU. -/
def wCpu4 : OpenCL_device := { OpenCL_device.default with max_compute_units := 4 }

def wGpu16 : OpenCL_device :=
  { OpenCL_device.default with device := 1, max_compute_units := 16 }

def wGpu32busy : OpenCL_device :=
  { OpenCL_device.default with device := 2, max_compute_units := 32, device_is_in_use := true }

/-- Witness for C2: a free 4-unit device against a busy 32-unit device,
two free devices compared by compute units, and the spec scenario list. -/
theorem claim_C2_witness :
    (devLt wCpu4 wGpu32busy = true ↔ wCpu4.device_is_in_use = false) ∧
    (devLt wCpu4 wGpu16 = true ↔ wCpu4.max_compute_units > wGpu16.max_compute_units) ∧
    (sortDevices [wCpu4, wGpu16, wGpu32busy]).Pairwise (fun x y =>
      (x.device_is_in_use = true → y.device_is_in_use = true) ∧
      (x.device_is_in_use = y.device_is_in_use →
        y.max_compute_units ≤ x.max_compute_units)) :=
  ⟨claim_C2.1 wCpu4 wGpu32busy (by decide),
   claim_C2.2.1 wCpu4 wGpu16 rfl,
   claim_C2.2.2 [wCpu4, wGpu16, wGpu32busy]⟩

/-! ### Claim C6 -/

theorem startsWithL_iff (h n : List Char) :
    startsWithL h n = true ↔ ∃ t, h = n ++ t := by
  induction n generalizing h with
  | nil =>
    cases h with
    | nil => simp [startsWithL]
    | cons c cs => simp [startsWithL]
  | cons x xs ih =>
    cases h with
    | nil => simp [startsWithL]
    | cons c cs =>
      rw [show startsWithL (c :: cs) (x :: xs) = (c == x && startsWithL cs xs) from rfl,
        Bool.and_eq_true, beq_iff_eq, ih cs]
      constructor
      · rintro ⟨rfl, t, rfl⟩
        exact ⟨t, rfl⟩
      · rintro ⟨t, ht⟩
        injection ht with h1 h2
        exact ⟨h1, t, h2⟩

theorem containsSub_iff (n h : List Char) :
    containsSub n h = true ↔ OccursIn n h := by
  induction h with
  | nil =>
    rw [show containsSub n [] = n.isEmpty from rfl]
    constructor
    · intro h2
      have hn : n = [] := by
        cases n with
        | nil => rfl
        | cons c cs => simp [List.isEmpty] at h2
      exact ⟨[], [], by simp [hn]⟩
    · rintro ⟨s, t, e⟩
      have := e.symm
      simp only [List.append_assoc, List.append_eq_nil] at this
      rcases this with ⟨rfl, rfl, rfl⟩
      rfl
  | cons c t ih =>
    rw [show containsSub n (c :: t) = (startsWithL (c :: t) n || containsSub n t) from rfl,
      Bool.or_eq_true, startsWithL_iff, ih]
    constructor
    · rintro (⟨u, hu⟩ | ⟨s, u, hs⟩)
      · exact ⟨[], u, by simp [hu]⟩
      · exact ⟨c :: s, u, by simp [hs]⟩
    · rintro ⟨s, u, hs⟩
      cases s with
      | nil => exact Or.inl ⟨u, by simpa using hs⟩
      | cons c2 s2 =>
        injection hs with h1 h2
        exact Or.inr ⟨s2, u, h2⟩

/-- Claim C6: a platform's vendor string is lower-cased and classified
by substring matching in the fixed order nvidia, then
advanced-micro-devices-or-amd, then intel, then apple; a vendor string
matching none of these substrings is a fatal abort (`none`). -/
theorem claim_C6 (vendor : List Char) :
    (classify vendor = some PlatformKey.NVIDIA ↔
      OccursIn ("nvidia").toList (vendor.map tolowerChar)) ∧
    (classify vendor = some PlatformKey.AMD ↔
      (¬ OccursIn ("nvidia").toList (vendor.map tolowerChar) ∧
       (OccursIn ("advanced micro devices").toList (vendor.map tolowerChar) ∨
        OccursIn ("amd").toList (vendor.map tolowerChar)))) ∧
    (classify vendor = some PlatformKey.INTEL ↔
      (¬ OccursIn ("nvidia").toList (vendor.map tolowerChar) ∧
       ¬ (OccursIn ("advanced micro devices").toList (vendor.map tolowerChar) ∨
          OccursIn ("amd").toList (vendor.map tolowerChar)) ∧
       OccursIn ("intel").toList (vendor.map tolowerChar))) ∧
    (classify vendor = some PlatformKey.APPLE ↔
      (¬ OccursIn ("nvidia").toList (vendor.map tolowerChar) ∧
       ¬ (OccursIn ("advanced micro devices").toList (vendor.map tolowerChar) ∨
          OccursIn ("amd").toList (vendor.map tolowerChar)) ∧
       ¬ OccursIn ("intel").toList (vendor.map tolowerChar) ∧
       OccursIn ("apple").toList (vendor.map tolowerChar))) ∧
    (classify vendor = none ↔
      (¬ OccursIn ("nvidia").toList (vendor.map tolowerChar) ∧
       ¬ (OccursIn ("advanced micro devices").toList (vendor.map tolowerChar) ∨
          OccursIn ("amd").toList (vendor.map tolowerChar)) ∧
       ¬ OccursIn ("intel").toList (vendor.map tolowerChar) ∧
       ¬ OccursIn ("apple").toList (vendor.map tolowerChar))) := by
  simp only [← containsSub_iff]
  unfold classify
  cases h1 : containsSub ("nvidia").toList (vendor.map tolowerChar) <;>
  cases h2 : containsSub ("advanced micro devices").toList (vendor.map tolowerChar) <;>
  cases h3 : containsSub ("amd").toList (vendor.map tolowerChar) <;>
  cases h4 : containsSub ("intel").toList (vendor.map tolowerChar) <;>
  cases h5 : containsSub ("apple").toList (vendor.map tolowerChar) <;>
  simp only [h1, h2, h3, h4, h5] <;>
  simp

theorem not_OccursIn_of_containsSub_false (n h : List Char)
    (hc : containsSub n h = false) : ¬ OccursIn n h := fun ho => by
  have := (containsSub_iff n h).mpr ho
  rw [hc] at this
  exact Bool.false_ne_true this

/-- Witness for C6: concrete vendor strings for each classification
branch and for the fatal unmatched case. -/
theorem claim_C6_witness :
    classify ("NVIDIA Corporation").toList = some PlatformKey.NVIDIA ∧
    classify ("Advanced Micro Devices, Inc.").toList = some PlatformKey.AMD ∧
    classify ("Intel(R) Corporation").toList = some PlatformKey.INTEL ∧
    classify ("Apple").toList = some PlatformKey.APPLE ∧
    classify ("Acme Compute").toList = none := by
  refine ⟨?_, ?_, ?_, ?_, ?_⟩
  · exact (claim_C6 ("NVIDIA Corporation").toList).1.mpr
      ⟨[], (" corporation").toList, by decide⟩
  · exact (claim_C6 ("Advanced Micro Devices, Inc.").toList).2.1.mpr
      ⟨not_OccursIn_of_containsSub_false _ _ (by decide),
       Or.inl ⟨[], (", inc.").toList, by decide⟩⟩
  · exact (claim_C6 ("Intel(R) Corporation").toList).2.2.1.mpr
      ⟨not_OccursIn_of_containsSub_false _ _ (by decide),
       not_or.mpr ⟨not_OccursIn_of_containsSub_false _ _ (by decide),
         not_OccursIn_of_containsSub_false _ _ (by decide)⟩,
       ⟨[], ("(r) corporation").toList, by decide⟩⟩
  · exact (claim_C6 ("Apple").toList).2.2.2.1.mpr
      ⟨not_OccursIn_of_containsSub_false _ _ (by decide),
       not_or.mpr ⟨not_OccursIn_of_containsSub_false _ _ (by decide),
         not_OccursIn_of_containsSub_false _ _ (by decide)⟩,
       not_OccursIn_of_containsSub_false _ _ (by decide),
       ⟨[], [], by decide⟩⟩
  · exact (claim_C6 ("Acme Compute").toList).2.2.2.2.mpr
      ⟨not_OccursIn_of_containsSub_false _ _ (by decide),
       not_or.mpr ⟨not_OccursIn_of_containsSub_false _ _ (by decide),
         not_OccursIn_of_containsSub_false _ _ (by decide)⟩,
       not_OccursIn_of_containsSub_false _ _ (by decide),
       not_OccursIn_of_containsSub_false _ _ (by decide)⟩

/-! ### Claim C7 -/

theorem mapLookup_mapInsert (m : List (PlatformKey × Nat)) (k k2 : PlatformKey) (off : Nat) :
    mapLookup (mapInsert m k off) k2 = if k = k2 then some off else mapLookup m k2 := by
  induction m with
  | nil => simp [mapInsert, mapLookup]
  | cons p t ih =>
    obtain ⟨ka, va⟩ := p
    by_cases hk : ka = k
    · subst hk
      by_cases hk2 : ka = k2
      · subst hk2
        simp [mapInsert, mapLookup]
      · simp [mapInsert, mapLookup, hk2]
    · by_cases hk2 : ka = k2
      · subst hk2
        have : ¬ k = ka := fun hc => hk hc.symm
        simp [mapInsert, mapLookup, hk, this]
      · simp [mapInsert, mapLookup, hk, hk2, ih]

theorem platformsRun_cons_none (off : Nat) (m : List (PlatformKey × Nat))
    (v : List Char) (vs : List (List Char)) (hc : classify v = none) :
    platformsRun off m (v :: vs) = none := by
  simp [platformsRun, hc]

theorem platformsRun_cons_some (off : Nat) (m : List (PlatformKey × Nat))
    (v : List Char) (vs : List (List Char)) (k : PlatformKey)
    (hc : classify v = some k) :
    platformsRun off m (v :: vs)
      = match platformsRun (off + 1) (mapInsert m k off) vs with
        | none => none
        | some (mf2, asg2) => some (mf2, (k, off) :: asg2) := by
  simp [platformsRun, hc]

theorem platformsRun_spec (vs : List (List Char)) (off : Nat)
    (m mf asg : List (PlatformKey × Nat))
    (h : platformsRun off m vs = some (mf, asg)) :
    asg.map (fun x => x.2) = List.range' off vs.length ∧
    asg.map (fun x => some x.1) = vs.map classify ∧
    (∀ k, mapLookup mf k =
      match lastVal k asg with
      | some r => some r
      | none => mapLookup m k) := by
  induction vs generalizing off m asg with
  | nil =>
    rw [show platformsRun off m [] = some (m, []) from rfl] at h
    injection h with h2
    injection h2 with hm ha
    subst hm
    subst ha
    exact ⟨rfl, rfl, fun k => rfl⟩
  | cons v vs ih =>
    cases hc : classify v with
    | none =>
      rw [platformsRun_cons_none off m v vs hc] at h
      exact absurd h (by simp)
    | some k =>
      rw [platformsRun_cons_some off m v vs k hc] at h
      cases hr : platformsRun (off + 1) (mapInsert m k off) vs with
      | none =>
        rw [hr] at h
        have h2 : (none : Option (List (PlatformKey × Nat) × List (PlatformKey × Nat)))
            = some (mf, asg) := h
        exact absurd h2 (by simp)
      | some r =>
        obtain ⟨mf2, asg2⟩ := r
        rw [hr] at h
        have h2 : some (mf2, (k, off) :: asg2) = some (mf, asg) := h
        injection h2 with h3
        injection h3 with hm ha
        subst hm
        subst ha
        obtain ⟨ih1, ih2, ih3⟩ := ih (off + 1) (mapInsert m k off) asg2 hr
        refine ⟨?_, ?_, ?_⟩
        · rw [List.length_cons, List.range'_succ]
          simp [ih1]
        · simp [ih2, hc]
        · intro k2
          have hmain := ih3 k2
          rw [show lastVal k2 ((k, off) :: asg2)
              = (match lastVal k2 asg2 with
                 | some r => some r
                 | none => if k = k2 then some off else none) from rfl]
          cases hl : lastVal k2 asg2 with
          | some r =>
            rw [hl] at hmain
            rw [hmain]
          | none =>
            rw [hl] at hmain
            rw [hmain, mapLookup_mapInsert]
            by_cases hkk : k = k2
            · simp [hkk]
            · simp [hkk]

/-- Claim C7: during `OpenCL_platforms_list::Initialize` the
discovery-order offsets are assigned sequentially from 0 independently
of the vendor key, so the assignment log's offsets are exactly
`0..n-1` (unique, equal to the 0-based discovery index) with keys
matching the vendor classification; and in the vendor-keyed map a
second platform with the same key overwrites the first, so each stored
offset is that of the last discovered platform with that key. -/
theorem claim_C7 (vendors : List (List Char)) (mf asg : List (PlatformKey × Nat))
    (h : OpenCL_platforms_list.Initialize vendors = some (mf, asg)) :
    asg.map (fun x => x.2) = List.range vendors.length ∧
    (asg.map (fun x => x.2)).Nodup ∧
    asg.map (fun x => some x.1) = vendors.map classify ∧
    (∀ k, mapLookup mf k = lastVal k asg) := by
  unfold OpenCL_platforms_list.Initialize at h
  by_cases hv : vendors.length = 0
  · rw [if_pos hv] at h
    exact absurd h (by simp)
  · rw [if_neg hv] at h
    obtain ⟨h1, h2, h3⟩ := platformsRun_spec vendors 0 [] mf asg h
    refine ⟨?_, ?_, h2, ?_⟩
    · rw [List.range_eq_range']
      exact h1
    · rw [h1]
      exact List.nodup_range' 0 vendors.length
    · intro k
      have := h3 k
      cases hl : lastVal k asg with
      | some r => rw [hl] at this; rw [this]
      | none => rw [hl] at this; rw [this]; rfl

/-- Witness for C7: three discovered platforms, two of them NVIDIA, so
the second NVIDIA overwrites the first in the vendor-keyed map while
offsets stay `0, 1, 2`. -/
theorem claim_C7_witness :
    ([(PlatformKey.NVIDIA, 0), (PlatformKey.APPLE, 1),
        (PlatformKey.NVIDIA, 2)].map (fun x => x.2)
      = List.range
          ([("NVIDIA Corporation").toList, ("Apple").toList,
            ("NVIDIA CUDA").toList] : List (List Char)).length) ∧
    (([(PlatformKey.NVIDIA, 0), (PlatformKey.APPLE, 1),
        (PlatformKey.NVIDIA, 2)].map (fun x => x.2)).Nodup) ∧
    ([(PlatformKey.NVIDIA, 0), (PlatformKey.APPLE, 1),
        (PlatformKey.NVIDIA, 2)].map (fun x => some x.1)
      = ([("NVIDIA Corporation").toList, ("Apple").toList,
          ("NVIDIA CUDA").toList] : List (List Char)).map classify) ∧
    (∀ k, mapLookup [(PlatformKey.NVIDIA, 2), (PlatformKey.APPLE, 1)] k
      = lastVal k [(PlatformKey.NVIDIA, 0), (PlatformKey.APPLE, 1),
          (PlatformKey.NVIDIA, 2)]) :=
  claim_C7
    [("NVIDIA Corporation").toList, ("Apple").toList, ("NVIDIA CUDA").toList]
    [(PlatformKey.NVIDIA, 2), (PlatformKey.APPLE, 1)]
    [(PlatformKey.NVIDIA, 0), (PlatformKey.APPLE, 1), (PlatformKey.NVIDIA, 2)]
    (by decide)
